import Mathlib

/-!
Verification of `pkg/release/push_git_objects.go`.

The file embeds the release-branch / release-tag publisher (`GitObjectPusher`
with its operations `NewGitPusher`, `PushBranch`, `PushTag`,
`checkBranchName`, `checkTagName`) as pure Lean functions.

The collaborator `git.Repo` (package `k8s.io/release/pkg/git`, external to the
file under verification) is represented abstractly by a record of operations
`RepoOps σ` over an abstract repository state `σ`, and each embedded operation
additionally returns the ordered list of collaborator calls it performed
(`List RepoCall`), so that call-count and frame properties can be stated.

The external semantic-version parsers (`semver.Parse` from
`github.com/blang/semver` and `util.TagStringToSemver`) are abstracted as
function parameters returning `Except GoError Unit`: only their
success/failure is consumed by the code under verification.
-/

namespace Release

/-- Go errors as produced via `github.com/pkg/errors`: either a plain message
(`errors.New`, `errors.Errorf`) or a context message wrapping a causing error
(`errors.Wrap`, `errors.Wrapf`). -/
inductive GoError where
  | simple (msg : String)
  | wrapped (msg : String) (cause : GoError)
deriving DecidableEq

/-- One call made to the `git.Repo` collaborator (or to `git.OpenRepo`). -/
inductive RepoCall where
  | openRepo (path : String)
  | checkout (branch : String)
  | setDry
  | setMaxRetries (n : Int)
  | hasBranch (name : String)
  | hasRemoteBranch (name : String)
  | tagsForBranch (branch : String)
  | hasRemoteTag (name : String)
  | push (ref : String)
deriving DecidableEq

/-- Is a collaborator call a push? (used to count push invocations). -/
def RepoCall.isPush : RepoCall → Bool
  | .push _ => true
  | _ => false

/-- The `git.Repo` collaborator, abstractly: every operation receives the
current abstract repository state and returns its result together with the
successor state. -/
structure RepoOps (σ : Type) where
  checkout : String → σ → Except GoError Unit × σ
  setDry : σ → σ
  setMaxRetries : Int → σ → σ
  hasBranch : String → σ → Except GoError Bool × σ
  hasRemoteBranch : String → σ → Except GoError Bool × σ
  tagsForBranch : String → σ → Except GoError (List String) × σ
  hasRemoteTag : String → σ → Except GoError Bool × σ
  push : String → σ → Except GoError Unit × σ

/-- `GitObjectPusherOptions` struct to hold the pusher options. -/
structure GitObjectPusherOptions where
  dryRun : Bool
  maxRetries : Int
  repoPath : String
deriving DecidableEq

/-- `GitObjectPusher` is an object that pushes things to a git repo: the
(copied) repository handle state together with the options. -/
structure GitObjectPusher (σ : Type) where
  repo : σ
  opts : GitObjectPusherOptions

/-- `strings.HasPrefix`, modelled over the character lists of the strings
(the prefixes involved are ASCII, where byte-wise and character-wise
comparison agree). -/
def hasPrefixChars (s pre : String) : Bool :=
  pre.data.isPrefixOf s.data

/-- `strings.TrimPrefix`: remove the leading `pre` when present, otherwise
return the string unchanged. -/
def trimPrefixChars (s pre : String) : String :=
  if hasPrefixChars s pre then String.mk (s.data.drop pre.data.length) else s

/-- `checkBranchName` verifies that the branch name is valid: it must start
with `release-` and the remainder, suffixed with `.0`, must parse as a
semantic version.  `parse` abstracts `semver.Parse`. -/
def checkBranchName (parse : String → Except GoError Unit) (branchName : String) :
    Except GoError Unit :=
  if !(hasPrefixChars branchName "release-") then
    .error (.simple "Branch name has to start with release-")
  else
    let versionTag := trimPrefixChars branchName "release-"
    match parse (versionTag ++ ".0") with
    | .error e => .error (.wrapped "parsing semantic version in branchname" e)
    | .ok _ => .ok ()

/-- `checkTagName` verifies that the specified tag name is valid.  `tagParse`
abstracts `util.TagStringToSemver`. -/
def checkTagName (tagParse : String → Except GoError Unit) (tagName : String) :
    Except GoError Unit :=
  match tagParse tagName with
  | .error e => .error (.wrapped "tranforming tag into semver" e)
  | .ok _ => .ok ()

/-- `NewGitPusher` returns a new git object pusher: it opens the repository at
`opts.repoPath`, checks out the default branch, passes the dry-run flag to the
repo when set, and sets the number of retries.  `defaultBranch` stands for the
constant `git.DefaultBranch`.  Returns the result together with the list of
collaborator calls performed. -/
def NewGitPusher {σ : Type} (openRepo : String → Except GoError σ) (ops : RepoOps σ)
    (defaultBranch : String) (opts : GitObjectPusherOptions) :
    Except GoError (GitObjectPusher σ) × List RepoCall :=
  match openRepo opts.repoPath with
  | .error e =>
      (.error (.wrapped "while opening repository" e), [.openRepo opts.repoPath])
  | .ok s0 =>
    match ops.checkout defaultBranch s0 with
    | (.error e, _) =>
        (.error (.wrapped ("checking out " ++ defaultBranch ++ " branch") e),
         [.openRepo opts.repoPath, .checkout defaultBranch])
    | (.ok _, s1) =>
        -- Pass the dry-run flag to the repo
        let s2 := if opts.dryRun then ops.setDry s1 else s1
        let dryCalls : List RepoCall := if opts.dryRun then [.setDry] else []
        -- Set the number of retries for the git operations
        let s3 := ops.setMaxRetries opts.maxRetries s2
        (.ok { repo := s3, opts := opts },
         [.openRepo opts.repoPath, .checkout defaultBranch] ++ dryCalls
           ++ [.setMaxRetries opts.maxRetries])

/-- `PushBranch` pushes a branch to the repository; this function is
idempotent.  Returns the Go result, the ordered collaborator calls made, and
the pusher afterwards. -/
def PushBranch {σ : Type} (ops : RepoOps σ) (parse : String → Except GoError Unit)
    (gp : GitObjectPusher σ) (branchName : String) :
    Except GoError Unit × List RepoCall × GitObjectPusher σ :=
  -- Check if the branch name is correct
  match checkBranchName parse branchName with
  | .error e => (.error (.wrapped "checking branch name" e), [], gp)
  | .ok _ =>
    -- To be able to push a branch the ref has to exist in the local repo
    match ops.hasBranch branchName gp.repo with
    | (.error e, s1) =>
        (.error (.wrapped "checking if branch already exists locally" e),
         [.hasBranch branchName], { gp with repo := s1 })
    | (.ok false, s1) =>
        (.error (.simple ("Unable to push branch " ++ branchName
            ++ ", it does not exist in the local repo")),
         [.hasBranch branchName], { gp with repo := s1 })
    | (.ok true, s1) =>
      -- Check if the remote branch exists already
      match ops.hasRemoteBranch branchName s1 with
      | (.error e, s2) =>
          (.error (.wrapped ("checking if branch " ++ branchName
              ++ " exists in remote repository") e),
           [.hasBranch branchName, .hasRemoteBranch branchName],
           { gp with repo := s2 })
      | (.ok true, s2) =>
          -- If the branch already exists in the remote repo, we do not do anything
          (.ok (),
           [.hasBranch branchName, .hasRemoteBranch branchName],
           { gp with repo := s2 })
      | (.ok false, s2) =>
        match ops.push branchName s2 with
        | (.error e, s3) =>
            (.error (.wrapped ("pushing branch " ++ branchName) e),
             [.hasBranch branchName, .hasRemoteBranch branchName,
              .push branchName],
             { gp with repo := s3 })
        | (.ok _, s3) =>
            (.ok (),
             [.hasBranch branchName, .hasRemoteBranch branchName,
              .push branchName],
             { gp with repo := s3 })

/-- The tag-existence loop of `PushTag`: scan the enumerated tags and stop at
the first one equal (exact string equality) to `newTag`. -/
def tagInList (newTag : String) : List String → Bool
  | [] => false
  | tag :: rest => if tag == newTag then true else tagInList newTag rest

/-- `PushTag` pushes a tag to the master repo.  `defaultBranch` stands for the
constant `git.DefaultBranch`. -/
def PushTag {σ : Type} (ops : RepoOps σ) (tagParse : String → Except GoError Unit)
    (defaultBranch : String) (gp : GitObjectPusher σ) (newTag : String) :
    Except GoError Unit × List RepoCall × GitObjectPusher σ :=
  -- Verify that the tag is a valid tag
  match checkTagName tagParse newTag with
  | .error e => (.error (.wrapped "parsing version tag" e), [], gp)
  | .ok _ =>
    -- Check if tag already exists
    match ops.tagsForBranch defaultBranch gp.repo with
    | (.error e, s1) =>
        (.error (.wrapped "checking if tag exists" e),
         [.tagsForBranch defaultBranch], { gp with repo := s1 })
    | (.ok currentTags, s1) =>
      -- verify that the tag exists locally before trying to push
      if !(tagInList newTag currentTags) then
        (.error (.simple ("unable to push tag " ++ newTag
            ++ ", it does not exist in the repo yet")),
         [.tagsForBranch defaultBranch], { gp with repo := s1 })
      else
        -- Check if tag already exists in the remote repo
        match ops.hasRemoteTag newTag s1 with
        | (.error e, s2) =>
            (.error (.wrapped ("checking of tag " ++ newTag ++ " exists") e),
             [.tagsForBranch defaultBranch, .hasRemoteTag newTag],
             { gp with repo := s2 })
        | (.ok true, s2) =>
            -- If the tag already exists in the remote, we return success
            (.ok (),
             [.tagsForBranch defaultBranch, .hasRemoteTag newTag],
             { gp with repo := s2 })
        | (.ok false, s2) =>
          match ops.push newTag s2 with
          | (.error e, s3) =>
              (.error (.wrapped ("pushing tag " ++ newTag) e),
               [.tagsForBranch defaultBranch, .hasRemoteTag newTag,
                .push newTag],
               { gp with repo := s3 })
          | (.ok _, s3) =>
              (.ok (),
               [.tagsForBranch defaultBranch, .hasRemoteTag newTag,
                .push newTag],
               { gp with repo := s3 })

/-!
Concrete instantiations of the abstract collaborator, used to exercise the
theorems on closed inputs.
-/

/-- Modelled from the spec: a concrete state for the RepositoryHandle
collaborator of §6 (`git.Repo`, which lives outside the file under
verification): dry-run flag, retry setting, the branches present locally, the
branches present on the remote, the tags reachable from each branch, and the
tags present on the remote. -/
structure World where
  dry : Bool
  maxRetries : Int
  localBranches : List String
  remoteBranches : List String
  tagsOn : String → List String
  remoteTags : List String

/-- Modelled from the spec: the RepositoryHandle collaborator contract of §6
interpreted over `World`: existence checks are live queries against the state,
`SetDryRun`/`SetMaxRetries` record the settings, and `Push(refName)` makes the
ref present on the remote. -/
def worldOps : RepoOps World where
  checkout := fun _ w => (.ok (), w)
  setDry := fun w => { w with dry := true }
  setMaxRetries := fun n w => { w with maxRetries := n }
  hasBranch := fun n w => (.ok (w.localBranches.contains n), w)
  hasRemoteBranch := fun n w => (.ok (w.remoteBranches.contains n), w)
  tagsForBranch := fun b w => (.ok (w.tagsOn b), w)
  hasRemoteTag := fun n w => (.ok (w.remoteTags.contains n), w)
  push := fun r w =>
    (.ok (), { w with remoteBranches := r :: w.remoteBranches,
                      remoteTags := r :: w.remoteTags })

/-- A stateless collaborator answering every query with a fixed response
(state `Unit`); used to instantiate theorems on closed inputs. -/
def constOps (co : Except GoError Unit) (hb hrB : Except GoError Bool)
    (tfb : Except GoError (List String)) (hrT : Except GoError Bool)
    (p : Except GoError Unit) : RepoOps Unit where
  checkout := fun _ s => (co, s)
  setDry := fun s => s
  setMaxRetries := fun _ s => s
  hasBranch := fun _ s => (hb, s)
  hasRemoteBranch := fun _ s => (hrB, s)
  tagsForBranch := fun _ s => (tfb, s)
  hasRemoteTag := fun _ s => (hrT, s)
  push := fun _ s => (p, s)

/-- A semantic-version parser stub accepting every string. -/
def parseOk : String → Except GoError Unit := fun _ => .ok ()

/-- A semantic-version parser stub rejecting every string. -/
def parseFail : String → Except GoError Unit :=
  fun s => .error (.simple ("No Major.Minor.Patch elements found in " ++ s))

/-- Fixed options for closed instantiations. -/
def opts0 : GitObjectPusherOptions :=
  { dryRun := false, maxRetries := 3, repoPath := "/tmp/k8s" }

/-- A stateful collaborator over state `Bool` recording whether a push has
happened: remote-existence queries report exactly the pushed state, and a push
sets it; used to exercise the idempotence theorem on a closed input. -/
def seqOps : RepoOps Bool where
  checkout := fun _ s => (.ok (), s)
  setDry := fun s => s
  setMaxRetries := fun _ s => s
  hasBranch := fun _ s => (.ok true, s)
  hasRemoteBranch := fun _ s => (.ok s, s)
  tagsForBranch := fun _ s => (.ok [], s)
  hasRemoteTag := fun _ s => (.ok s, s)
  push := fun _ _ => (.ok (), true)

/-!
Claims.
-/

/-- C2: in both `PushBranch` and `PushTag`, when the remote existence check
reports the ref already present, the operation performs no push (the call
trace is exactly the local query followed by the remote query) and returns
success. -/
theorem remote_present_is_noop {σ : Type} (ops : RepoOps σ)
    (parse tagParse : String → Except GoError Unit) (defaultBranch : String)
    (gp : GitObjectPusher σ) (name : String) :
    (∀ s1 s2,
      checkBranchName parse name = .ok () →
      ops.hasBranch name gp.repo = (.ok true, s1) →
      ops.hasRemoteBranch name s1 = (.ok true, s2) →
      PushBranch ops parse gp name =
        (.ok (), [.hasBranch name, .hasRemoteBranch name],
         { gp with repo := s2 }))
    ∧
    (∀ tags s1 s2,
      checkTagName tagParse name = .ok () →
      ops.tagsForBranch defaultBranch gp.repo = (.ok tags, s1) →
      tagInList name tags = true →
      ops.hasRemoteTag name s1 = (.ok true, s2) →
      PushTag ops tagParse defaultBranch gp name =
        (.ok (), [.tagsForBranch defaultBranch, .hasRemoteTag name],
         { gp with repo := s2 })) := by
  constructor
  · intro s1 s2 hc hb hr
    simp only [PushBranch, hc, hb, hr]
  · intro tags s1 s2 hc ht hmem hr
    simp only [PushTag, hc, ht, hmem, hr, Bool.not_true, Bool.false_eq_true,
      if_false]

/-- Witness for C2: a branch already on the remote and a tag already on the
remote are both no-ops returning success. -/
theorem remote_present_is_noop_witness :
    PushBranch (constOps (.ok ()) (.ok true) (.ok true) (.ok []) (.ok true) (.ok ()))
        parseOk { repo := (), opts := opts0 } "release-1.18" =
      (.ok (), [.hasBranch "release-1.18", .hasRemoteBranch "release-1.18"],
       { repo := (), opts := opts0 })
    ∧
    PushTag (constOps (.ok ()) (.ok true) (.ok true) (.ok ["v1.18.0"]) (.ok true) (.ok ()))
        parseOk "master" { repo := (), opts := opts0 } "v1.18.0" =
      (.ok (), [.tagsForBranch "master", .hasRemoteTag "v1.18.0"],
       { repo := (), opts := opts0 }) := by
  constructor
  · exact (remote_present_is_noop _ parseOk parseOk "master" _ "release-1.18").1
      () () rfl rfl rfl
  · exact (remote_present_is_noop _ parseOk parseOk "master" _ "v1.18.0").2
      ["v1.18.0"] () () rfl rfl rfl rfl

/-- C3: in both `PushBranch` and `PushTag`, when the local existence check
reports the ref absent (branch not found locally, or tag not in the
enumerated tag set), the operation returns the ref-not-found error and the
call trace contains no push. -/
theorem local_absent_returns_refNotFound {σ : Type} (ops : RepoOps σ)
    (parse tagParse : String → Except GoError Unit) (defaultBranch : String)
    (gp : GitObjectPusher σ) (name : String) :
    (∀ s1,
      checkBranchName parse name = .ok () →
      ops.hasBranch name gp.repo = (.ok false, s1) →
      PushBranch ops parse gp name =
        (.error (.simple ("Unable to push branch " ++ name
            ++ ", it does not exist in the local repo")),
         [.hasBranch name], { gp with repo := s1 }))
    ∧
    (∀ tags s1,
      checkTagName tagParse name = .ok () →
      ops.tagsForBranch defaultBranch gp.repo = (.ok tags, s1) →
      tagInList name tags = false →
      PushTag ops tagParse defaultBranch gp name =
        (.error (.simple ("unable to push tag " ++ name
            ++ ", it does not exist in the repo yet")),
         [.tagsForBranch defaultBranch], { gp with repo := s1 })) := by
  constructor
  · intro s1 hc hb
    simp only [PushBranch, hc, hb]
  · intro tags s1 hc ht hmem
    simp [PushTag, hc, ht, hmem]

/-- Witness for C3: a missing local branch and a tag outside the enumerated
set both produce the ref-not-found error without pushing. -/
theorem local_absent_returns_refNotFound_witness :
    PushBranch (constOps (.ok ()) (.ok false) (.ok false) (.ok []) (.ok false) (.ok ()))
        parseOk { repo := (), opts := opts0 } "release-1.18" =
      (.error (.simple
          "Unable to push branch release-1.18, it does not exist in the local repo"),
       [.hasBranch "release-1.18"], { repo := (), opts := opts0 })
    ∧
    PushTag (constOps (.ok ()) (.ok false) (.ok false) (.ok ["v1.17.0"]) (.ok false) (.ok ()))
        parseOk "master" { repo := (), opts := opts0 } "v1.18.0" =
      (.error (.simple
          "unable to push tag v1.18.0, it does not exist in the repo yet"),
       [.tagsForBranch "master"], { repo := (), opts := opts0 }) := by
  constructor
  · exact (local_absent_returns_refNotFound _ parseOk parseOk "master" _
      "release-1.18").1 () rfl rfl
  · exact (local_absent_returns_refNotFound _ parseOk parseOk "master" _
      "v1.18.0").2 ["v1.17.0"] () rfl rfl rfl

/-- C4: for every string that fails the branch-name grammar (missing
`release-` leading text, or the remainder suffixed with `.0` failing the
semantic-version parse), `PushBranch` returns the invalid-name error wrapped
as "checking branch name" and performs zero collaborator calls (empty call
trace, pusher unchanged). -/
theorem invalid_branch_name_zero_calls {σ : Type} (ops : RepoOps σ)
    (parse : String → Except GoError Unit) (gp : GitObjectPusher σ)
    (name : String)
    (h : hasPrefixChars name "release-" = false ∨
      ∃ e, parse (trimPrefixChars name "release-" ++ ".0") = .error e) :
    ∃ e2, PushBranch ops parse gp name =
      (.error (.wrapped "checking branch name" e2), [], gp) := by
  rcases h with hpre | ⟨e, hparse⟩
  · refine ⟨.simple "Branch name has to start with release-", ?_⟩
    simp [PushBranch, checkBranchName, hpre]
  · rcases Bool.eq_false_or_eq_true (hasPrefixChars name "release-") with hp | hp
    · refine ⟨.wrapped "parsing semantic version in branchname" e, ?_⟩
      simp [PushBranch, checkBranchName, hp, hparse]
    · refine ⟨.simple "Branch name has to start with release-", ?_⟩
      simp [PushBranch, checkBranchName, hp]

/-- Witness for C4: `release-foo` (invalid semantic-version remainder, under a
parser rejecting every string) yields the invalid-name error with zero
collaborator calls. -/
theorem invalid_branch_name_zero_calls_witness :
    ∃ e2, PushBranch (constOps (.ok ()) (.ok true) (.ok true) (.ok []) (.ok true) (.ok ()))
        parseFail { repo := (), opts := opts0 } "release-foo" =
      (.error (.wrapped "checking branch name" e2), [],
       { repo := (), opts := opts0 }) :=
  invalid_branch_name_zero_calls _ parseFail _ "release-foo"
    (Or.inr ⟨.simple ("No Major.Minor.Patch elements found in " ++ "foo.0"), rfl⟩)

/-- C5: for a branch name passing the grammar that exists locally and is
absent remotely, `PushBranch` invokes push exactly once (the trace ends in
the single push call) and returns success; when that push fails, the push
error is returned wrapped as "pushing branch `name`". -/
theorem valid_branch_pushes_once {σ : Type} (ops : RepoOps σ)
    (parse : String → Except GoError Unit) (gp : GitObjectPusher σ)
    (name : String) :
    (∀ s1 s2 s3,
      checkBranchName parse name = .ok () →
      ops.hasBranch name gp.repo = (.ok true, s1) →
      ops.hasRemoteBranch name s1 = (.ok false, s2) →
      ops.push name s2 = (.ok (), s3) →
      PushBranch ops parse gp name =
        (.ok (), [.hasBranch name, .hasRemoteBranch name, .push name],
         { gp with repo := s3 }))
    ∧
    (∀ s1 s2 s3 e,
      checkBranchName parse name = .ok () →
      ops.hasBranch name gp.repo = (.ok true, s1) →
      ops.hasRemoteBranch name s1 = (.ok false, s2) →
      ops.push name s2 = (.error e, s3) →
      PushBranch ops parse gp name =
        (.error (.wrapped ("pushing branch " ++ name) e),
         [.hasBranch name, .hasRemoteBranch name, .push name],
         { gp with repo := s3 })) := by
  constructor
  · intro s1 s2 s3 hc hb hr hp
    simp only [PushBranch, hc, hb, hr, hp]
  · intro s1 s2 s3 e hc hb hr hp
    simp only [PushBranch, hc, hb, hr, hp]

/-- Witness for C5: branch `release-1.19` exists locally and is absent
remotely; with a succeeding push the call returns success after exactly one
push, and with a failing push the returned error wraps the push failure. -/
theorem valid_branch_pushes_once_witness :
    PushBranch (constOps (.ok ()) (.ok true) (.ok false) (.ok []) (.ok false) (.ok ()))
        parseOk { repo := (), opts := opts0 } "release-1.19" =
      (.ok (), [.hasBranch "release-1.19", .hasRemoteBranch "release-1.19",
        .push "release-1.19"], { repo := (), opts := opts0 })
    ∧
    PushBranch (constOps (.ok ()) (.ok true) (.ok false) (.ok []) (.ok false)
          (.error (.simple "remote hung up")))
        parseOk { repo := (), opts := opts0 } "release-1.19" =
      (.error (.wrapped "pushing branch release-1.19" (.simple "remote hung up")),
       [.hasBranch "release-1.19", .hasRemoteBranch "release-1.19",
        .push "release-1.19"], { repo := (), opts := opts0 }) := by
  constructor
  · exact (valid_branch_pushes_once _ parseOk _ "release-1.19").1
      () () () rfl rfl rfl rfl
  · exact (valid_branch_pushes_once _ parseOk _ "release-1.19").2
      () () () (.simple "remote hung up") rfl rfl rfl rfl

/-- C1: calling `PushBranch` twice in sequence on the same publisher, where
the second call observes the remote state produced by the first (the push of
the first call makes the remote existence check report the branch present),
returns success both times, and the combined call traces contain exactly one
push. -/
theorem pushBranch_twice_one_push {σ : Type} (ops : RepoOps σ)
    (parse : String → Except GoError Unit) (gp : GitObjectPusher σ)
    (name : String) (s1 s2 s3 s4 s5 : σ)
    (hc : checkBranchName parse name = .ok ())
    (hb1 : ops.hasBranch name gp.repo = (.ok true, s1))
    (hr1 : ops.hasRemoteBranch name s1 = (.ok false, s2))
    (hp : ops.push name s2 = (.ok (), s3))
    (hb2 : ops.hasBranch name s3 = (.ok true, s4))
    (hr2 : ops.hasRemoteBranch name s4 = (.ok true, s5)) :
    PushBranch ops parse gp name =
      (.ok (), [.hasBranch name, .hasRemoteBranch name, .push name],
       { gp with repo := s3 })
    ∧
    PushBranch ops parse { gp with repo := s3 } name =
      (.ok (), [.hasBranch name, .hasRemoteBranch name],
       { gp with repo := s5 })
    ∧
    List.countP RepoCall.isPush
      ([.hasBranch name, .hasRemoteBranch name, .push name]
        ++ [.hasBranch name, .hasRemoteBranch name]) = 1 := by
  refine ⟨?_, ?_, ?_⟩
  · simp only [PushBranch, hc, hb1, hr1, hp]
  · simp [PushBranch, hc, hb2, hr2]
  · rfl

/-- Witness for C1: over a collaborator whose remote-existence answer records
whether a push has happened, two sequential calls succeed with one push. -/
theorem pushBranch_twice_one_push_witness :
    PushBranch seqOps parseOk { repo := false, opts := opts0 } "release-1.18" =
      (.ok (), [.hasBranch "release-1.18", .hasRemoteBranch "release-1.18",
        .push "release-1.18"], { repo := true, opts := opts0 })
    ∧
    PushBranch seqOps parseOk { repo := true, opts := opts0 } "release-1.18" =
      (.ok (), [.hasBranch "release-1.18", .hasRemoteBranch "release-1.18"],
       { repo := true, opts := opts0 })
    ∧
    List.countP RepoCall.isPush
      ([.hasBranch "release-1.18", .hasRemoteBranch "release-1.18",
        .push "release-1.18"]
        ++ [.hasBranch "release-1.18", .hasRemoteBranch "release-1.18"]) = 1 :=
  pushBranch_twice_one_push seqOps parseOk { repo := false, opts := opts0 }
    "release-1.18" false false true true true rfl rfl rfl rfl rfl rfl

/-- C6: `PushTag` decides local existence by scanning the tags enumerated for
the default branch with exact string equality: the scan reports a hit exactly
when some element of the enumerated list equals the tag name, and the
ref-not-found outcome occurs exactly when the scan misses. -/
theorem pushTag_local_membership_exact {σ : Type} (ops : RepoOps σ)
    (tagParse : String → Except GoError Unit) (defaultBranch : String)
    (gp : GitObjectPusher σ) (name : String) (tags : List String) (s1 : σ)
    (hc : checkTagName tagParse name = .ok ())
    (ht : ops.tagsForBranch defaultBranch gp.repo = (.ok tags, s1)) :
    (tagInList name tags = true ↔ ∃ x ∈ tags, x = name)
    ∧ ((PushTag ops tagParse defaultBranch gp name).1 ≠
        .error (.simple ("unable to push tag " ++ name
          ++ ", it does not exist in the repo yet"))
       ↔ tagInList name tags = true) := by
  constructor
  · clear ht
    induction tags with
    | nil => simp [tagInList]
    | cons t rest ih =>
      by_cases h1 : t = name
      · subst h1
        simp only [tagInList]
        rw [if_pos (by simp)]
        constructor
        · intro _
          exact ⟨t, List.mem_cons_self t rest, rfl⟩
        · intro _
          rfl
      · have hne : ¬ ((t == name) = true) := by simp [h1]
        simp only [tagInList]
        rw [if_neg hne, ih]
        constructor
        · rintro ⟨x, hx, hxe⟩
          exact ⟨x, List.mem_cons_of_mem t hx, hxe⟩
        · rintro ⟨x, hx, hxe⟩
          rcases List.mem_cons.mp hx with heq | hmem
          · exact absurd (heq ▸ hxe) h1
          · exact ⟨x, hmem, hxe⟩
  · by_cases hm : tagInList name tags = true
    · simp only [PushTag, hc, ht, hm, Bool.not_true, Bool.false_eq_true,
        if_false, hm, iff_true]
      rcases hrt : ops.hasRemoteTag name s1 with ⟨r, s2⟩
      rcases r with e | b
      · simp [hrt]
      · cases b
        · rcases hpu : ops.push name s2 with ⟨pr, s3⟩
          rcases pr with e | u <;> simp [hrt, hpu]
        · simp [hrt]
    · have hm2 : tagInList name tags = false := by simpa using hm
      simp [PushTag, hc, ht, hm2]

/-- Witness for C6: with local tags `[v1.17.0, v1.18.0]`, the scan finds
`v1.18.0` and `PushTag` does not report it missing. -/
theorem pushTag_local_membership_exact_witness :
    (tagInList "v1.18.0" ["v1.17.0", "v1.18.0"] = true ↔
      ∃ x ∈ ["v1.17.0", "v1.18.0"], x = "v1.18.0")
    ∧ ((PushTag (constOps (.ok ()) (.ok true) (.ok true)
          (.ok ["v1.17.0", "v1.18.0"]) (.ok true) (.ok ()))
        parseOk "master" { repo := (), opts := opts0 } "v1.18.0").1 ≠
        .error (.simple
          "unable to push tag v1.18.0, it does not exist in the repo yet")
       ↔ tagInList "v1.18.0" ["v1.17.0", "v1.18.0"] = true) :=
  pushTag_local_membership_exact
    (constOps (.ok ()) (.ok true) (.ok true) (.ok ["v1.17.0", "v1.18.0"])
      (.ok true) (.ok ()))
    parseOk "master" { repo := (), opts := opts0 } "v1.18.0"
    ["v1.17.0", "v1.18.0"] () rfl rfl

/-- C7: a successful construction propagates `opts.dryRun` and
`opts.maxRetries` to the repository handle: over the spec-modelled concrete
collaborator, the returned handle state records exactly the configured
dry-run flag (starting from the handle default, dry-run off) and the
configured retry count. -/
theorem newGitPusher_propagates_config
    (openRepo : String → Except GoError World) (defaultBranch : String)
    (opts : GitObjectPusherOptions) (w0 : World)
    (gp : GitObjectPusher World) (tr : List RepoCall)
    (hopen : openRepo opts.repoPath = .ok w0) (hdry : w0.dry = false)
    (hres : NewGitPusher openRepo worldOps defaultBranch opts = (.ok gp, tr)) :
    gp.repo.dry = opts.dryRun ∧ gp.repo.maxRetries = opts.maxRetries := by
  rcases Bool.eq_false_or_eq_true opts.dryRun with hd | hd <;>
    simp only [NewGitPusher, worldOps, hopen, hd, if_true, if_false,
      Bool.false_eq_true, Prod.mk.injEq, Except.ok.injEq] at hres <;>
    rcases hres with ⟨hgp, htr⟩ <;> subst hgp <;> simp [hd, hdry]

/-- An initial handle state with dry-run off and no refs, for closed
instantiations. -/
def emptyWorld : World where
  dry := false
  maxRetries := 0
  localBranches := []
  remoteBranches := []
  tagsOn := fun _ => []
  remoteTags := []

/-- Witness for C7: constructing with dry-run on and five retries over an
initial handle with dry-run off yields a handle recording both settings. -/
theorem newGitPusher_propagates_config_witness :
    ∃ gp tr,
      NewGitPusher (fun _ => .ok emptyWorld) worldOps "master"
        { dryRun := true, maxRetries := 5, repoPath := "/tmp/k8s" } =
        (.ok gp, tr)
      ∧ gp.repo.dry = true ∧ gp.repo.maxRetries = 5 := by
  refine ⟨_, _, rfl, ?_⟩
  exact newGitPusher_propagates_config (fun _ => .ok emptyWorld) "master"
    { dryRun := true, maxRetries := 5, repoPath := "/tmp/k8s" } emptyWorld
    _ _ rfl rfl rfl

/-- C8: every error returned by a collaborator call — open and checkout
during construction; local lookup, remote lookup and push in `PushBranch`;
tag enumeration, remote lookup and push in `PushTag` — is propagated wrapped
with the operation context, never swallowed. -/
theorem collaborator_errors_wrapped :
    (∀ (σ : Type) (openRepo : String → Except GoError σ) (ops : RepoOps σ)
        (db : String) (opts : GitObjectPusherOptions) (e : GoError),
      openRepo opts.repoPath = .error e →
      (NewGitPusher openRepo ops db opts).1 =
        .error (.wrapped "while opening repository" e))
    ∧ (∀ (σ : Type) (openRepo : String → Except GoError σ) (ops : RepoOps σ)
        (db : String) (opts : GitObjectPusherOptions) (s0 : σ) (e : GoError)
        (s1 : σ),
      openRepo opts.repoPath = .ok s0 →
      ops.checkout db s0 = (.error e, s1) →
      (NewGitPusher openRepo ops db opts).1 =
        .error (.wrapped ("checking out " ++ db ++ " branch") e))
    ∧ (∀ (σ : Type) (ops : RepoOps σ) (parse : String → Except GoError Unit)
        (gp : GitObjectPusher σ) (name : String) (e : GoError) (s1 : σ),
      checkBranchName parse name = .ok () →
      ops.hasBranch name gp.repo = (.error e, s1) →
      (PushBranch ops parse gp name).1 =
        .error (.wrapped "checking if branch already exists locally" e))
    ∧ (∀ (σ : Type) (ops : RepoOps σ) (parse : String → Except GoError Unit)
        (gp : GitObjectPusher σ) (name : String) (e : GoError) (s1 s2 : σ),
      checkBranchName parse name = .ok () →
      ops.hasBranch name gp.repo = (.ok true, s1) →
      ops.hasRemoteBranch name s1 = (.error e, s2) →
      (PushBranch ops parse gp name).1 =
        .error (.wrapped ("checking if branch " ++ name
          ++ " exists in remote repository") e))
    ∧ (∀ (σ : Type) (ops : RepoOps σ) (parse : String → Except GoError Unit)
        (gp : GitObjectPusher σ) (name : String) (e : GoError) (s1 s2 s3 : σ),
      checkBranchName parse name = .ok () →
      ops.hasBranch name gp.repo = (.ok true, s1) →
      ops.hasRemoteBranch name s1 = (.ok false, s2) →
      ops.push name s2 = (.error e, s3) →
      (PushBranch ops parse gp name).1 =
        .error (.wrapped ("pushing branch " ++ name) e))
    ∧ (∀ (σ : Type) (ops : RepoOps σ) (tagParse : String → Except GoError Unit)
        (db : String) (gp : GitObjectPusher σ) (name : String) (e : GoError)
        (s1 : σ),
      checkTagName tagParse name = .ok () →
      ops.tagsForBranch db gp.repo = (.error e, s1) →
      (PushTag ops tagParse db gp name).1 =
        .error (.wrapped "checking if tag exists" e))
    ∧ (∀ (σ : Type) (ops : RepoOps σ) (tagParse : String → Except GoError Unit)
        (db : String) (gp : GitObjectPusher σ) (name : String)
        (tags : List String) (e : GoError) (s1 s2 : σ),
      checkTagName tagParse name = .ok () →
      ops.tagsForBranch db gp.repo = (.ok tags, s1) →
      tagInList name tags = true →
      ops.hasRemoteTag name s1 = (.error e, s2) →
      (PushTag ops tagParse db gp name).1 =
        .error (.wrapped ("checking of tag " ++ name ++ " exists") e))
    ∧ (∀ (σ : Type) (ops : RepoOps σ) (tagParse : String → Except GoError Unit)
        (db : String) (gp : GitObjectPusher σ) (name : String)
        (tags : List String) (e : GoError) (s1 s2 s3 : σ),
      checkTagName tagParse name = .ok () →
      ops.tagsForBranch db gp.repo = (.ok tags, s1) →
      tagInList name tags = true →
      ops.hasRemoteTag name s1 = (.ok false, s2) →
      ops.push name s2 = (.error e, s3) →
      (PushTag ops tagParse db gp name).1 =
        .error (.wrapped ("pushing tag " ++ name) e)) := by
  refine ⟨?_, ?_, ?_, ?_, ?_, ?_, ?_, ?_⟩
  · intro σ openRepo ops db opts e h
    simp [NewGitPusher, h]
  · intro σ openRepo ops db opts s0 e s1 h hco
    simp [NewGitPusher, h, hco]
  · intro σ ops parse gp name e s1 hc hb
    simp [PushBranch, hc, hb]
  · intro σ ops parse gp name e s1 s2 hc hb hr
    simp [PushBranch, hc, hb, hr]
  · intro σ ops parse gp name e s1 s2 s3 hc hb hr hp
    simp [PushBranch, hc, hb, hr, hp]
  · intro σ ops tagParse db gp name e s1 hc ht
    simp [PushTag, hc, ht]
  · intro σ ops tagParse db gp name tags e s1 s2 hc ht hm hr
    simp [PushTag, hc, ht, hm, hr]
  · intro σ ops tagParse db gp name tags e s1 s2 s3 hc ht hm hr hp
    simp [PushTag, hc, ht, hm, hr, hp]

/-- Witness for C8: each of the eight collaborator call sites, made to fail
on a concrete input, surfaces its wrapped error. -/
theorem collaborator_errors_wrapped_witness :
    ((NewGitPusher (fun _ => .error (.simple "not a git repo"))
        (constOps (.ok ()) (.ok true) (.ok true) (.ok []) (.ok true) (.ok ()))
        "master" opts0).1 =
      .error (.wrapped "while opening repository" (.simple "not a git repo")))
    ∧ ((NewGitPusher (fun _ => .ok ())
        (constOps (.error (.simple "dirty tree")) (.ok true) (.ok true)
          (.ok []) (.ok true) (.ok ()))
        "master" opts0).1 =
      .error (.wrapped "checking out master branch" (.simple "dirty tree")))
    ∧ ((PushBranch
        (constOps (.ok ()) (.error (.simple "bad ref db")) (.ok true) (.ok [])
          (.ok true) (.ok ()))
        parseOk { repo := (), opts := opts0 } "release-1.18").1 =
      .error (.wrapped "checking if branch already exists locally"
        (.simple "bad ref db")))
    ∧ ((PushBranch
        (constOps (.ok ()) (.ok true) (.error (.simple "network down")) (.ok [])
          (.ok true) (.ok ()))
        parseOk { repo := (), opts := opts0 } "release-1.18").1 =
      .error (.wrapped "checking if branch release-1.18 exists in remote repository"
        (.simple "network down")))
    ∧ ((PushBranch
        (constOps (.ok ()) (.ok true) (.ok false) (.ok []) (.ok true)
          (.error (.simple "remote hung up")))
        parseOk { repo := (), opts := opts0 } "release-1.18").1 =
      .error (.wrapped "pushing branch release-1.18" (.simple "remote hung up")))
    ∧ ((PushTag
        (constOps (.ok ()) (.ok true) (.ok true) (.error (.simple "bad ref db"))
          (.ok true) (.ok ()))
        parseOk "master" { repo := (), opts := opts0 } "v1.18.0").1 =
      .error (.wrapped "checking if tag exists" (.simple "bad ref db")))
    ∧ ((PushTag
        (constOps (.ok ()) (.ok true) (.ok true) (.ok ["v1.18.0"])
          (.error (.simple "network down")) (.ok ()))
        parseOk "master" { repo := (), opts := opts0 } "v1.18.0").1 =
      .error (.wrapped "checking of tag v1.18.0 exists" (.simple "network down")))
    ∧ ((PushTag
        (constOps (.ok ()) (.ok true) (.ok true) (.ok ["v1.18.0"]) (.ok false)
          (.error (.simple "remote hung up")))
        parseOk "master" { repo := (), opts := opts0 } "v1.18.0").1 =
      .error (.wrapped "pushing tag v1.18.0" (.simple "remote hung up"))) := by
  refine ⟨?_, ?_, ?_, ?_, ?_, ?_, ?_, ?_⟩
  · exact collaborator_errors_wrapped.1 Unit _ _ "master" opts0 _ rfl
  · exact collaborator_errors_wrapped.2.1 Unit _ _ "master" opts0 () _ () rfl rfl
  · exact collaborator_errors_wrapped.2.2.1 Unit _ parseOk _ "release-1.18"
      _ () rfl rfl
  · exact collaborator_errors_wrapped.2.2.2.1 Unit _ parseOk _ "release-1.18"
      _ () () rfl rfl rfl
  · exact collaborator_errors_wrapped.2.2.2.2.1 Unit _ parseOk _ "release-1.18"
      _ () () () rfl rfl rfl rfl
  · exact collaborator_errors_wrapped.2.2.2.2.2.1 Unit _ parseOk "master" _
      "v1.18.0" _ () rfl rfl
  · exact collaborator_errors_wrapped.2.2.2.2.2.2.1 Unit _ parseOk "master" _
      "v1.18.0" ["v1.18.0"] _ () () rfl rfl rfl rfl
  · exact collaborator_errors_wrapped.2.2.2.2.2.2.2 Unit _ parseOk "master" _
      "v1.18.0" ["v1.18.0"] _ () () () rfl rfl rfl rfl rfl

/-- C9: construction issues the dry-run call to the handle exactly when
`opts.dryRun` is set and construction reaches that point (which is exactly
the successful constructions, since both failures occur earlier); with
`opts.dryRun` false, no dry-run call appears in any trace. -/
theorem newGitPusher_setDry_iff_dryRun {σ : Type}
    (openRepo : String → Except GoError σ) (ops : RepoOps σ) (db : String)
    (opts : GitObjectPusherOptions) :
    RepoCall.setDry ∈ (NewGitPusher openRepo ops db opts).2 ↔
      (opts.dryRun = true ∧
        ∃ gp, (NewGitPusher openRepo ops db opts).1 = .ok gp) := by
  rcases ho : openRepo opts.repoPath with e | s0
  · simp [NewGitPusher, ho]
  · rcases hco : ops.checkout db s0 with ⟨r, s1⟩
    rcases r with e | u
    · simp [NewGitPusher, ho, hco]
    · cases hd : opts.dryRun with
      | false => simp [NewGitPusher, ho, hco, hd]
      | true => simp [NewGitPusher, ho, hco, hd]

/-- Witness for C9: with dry-run configured, a successful construction's
trace contains the dry-run call. -/
theorem newGitPusher_setDry_iff_dryRun_witness :
    RepoCall.setDry ∈
      (NewGitPusher (fun _ => .ok emptyWorld) worldOps "master"
        { dryRun := true, maxRetries := 5, repoPath := "/tmp/k8s" }).2 ↔
      ({ dryRun := true, maxRetries := 5,
         repoPath := "/tmp/k8s" : GitObjectPusherOptions }.dryRun = true ∧
        ∃ gp,
          (NewGitPusher (fun _ => .ok emptyWorld) worldOps "master"
            { dryRun := true, maxRetries := 5, repoPath := "/tmp/k8s" }).1 =
            .ok gp) :=
  newGitPusher_setDry_iff_dryRun (fun _ => .ok emptyWorld) worldOps "master"
    { dryRun := true, maxRetries := 5, repoPath := "/tmp/k8s" }

/-- C10: `PushBranch` and `PushTag` leave the configuration unchanged and
their collaborator call trace is always an initial segment of: local
existence query, then remote existence query, then one push — in particular
no checkout, no dry-run call, no retry reconfiguration, and at most one
push. -/
theorem publish_frame {σ : Type} (ops : RepoOps σ)
    (parse tagParse : String → Except GoError Unit) (db : String)
    (gp : GitObjectPusher σ) (name : String) :
    ((PushBranch ops parse gp name).2.2.opts = gp.opts ∧
      ((PushBranch ops parse gp name).2.1 = [] ∨
       (PushBranch ops parse gp name).2.1 = [.hasBranch name] ∨
       (PushBranch ops parse gp name).2.1 =
         [.hasBranch name, .hasRemoteBranch name] ∨
       (PushBranch ops parse gp name).2.1 =
         [.hasBranch name, .hasRemoteBranch name, .push name]))
    ∧
    ((PushTag ops tagParse db gp name).2.2.opts = gp.opts ∧
      ((PushTag ops tagParse db gp name).2.1 = [] ∨
       (PushTag ops tagParse db gp name).2.1 = [.tagsForBranch db] ∨
       (PushTag ops tagParse db gp name).2.1 =
         [.tagsForBranch db, .hasRemoteTag name] ∨
       (PushTag ops tagParse db gp name).2.1 =
         [.tagsForBranch db, .hasRemoteTag name, .push name])) := by
  constructor
  · rcases hc : checkBranchName parse name with e | u
    · simp [PushBranch, hc]
    · rcases hb : ops.hasBranch name gp.repo with ⟨rb, s1⟩
      rcases rb with e | b
      · simp [PushBranch, hc, hb]
      · cases b
        · simp [PushBranch, hc, hb]
        · rcases hr : ops.hasRemoteBranch name s1 with ⟨rr, s2⟩
          rcases rr with e | b2
          · simp [PushBranch, hc, hb, hr]
          · cases b2
            · rcases hp : ops.push name s2 with ⟨rp, s3⟩
              rcases rp with e | u2 <;> simp [PushBranch, hc, hb, hr, hp]
            · simp [PushBranch, hc, hb, hr]
  · rcases hc : checkTagName tagParse name with e | u
    · simp [PushTag, hc]
    · rcases ht : ops.tagsForBranch db gp.repo with ⟨rt, s1⟩
      rcases rt with e | tags
      · simp [PushTag, hc, ht]
      · cases hm : tagInList name tags with
        | false => simp [PushTag, hc, ht, hm]
        | true =>
          rcases hr : ops.hasRemoteTag name s1 with ⟨rr, s2⟩
          rcases rr with e | b2
          · simp [PushTag, hc, ht, hm, hr]
          · cases b2
            · rcases hp : ops.push name s2 with ⟨rp, s3⟩
              rcases rp with e | u2 <;> simp [PushTag, hc, ht, hm, hr, hp]
            · simp [PushTag, hc, ht, hm, hr]

/-- Witness for C10: on a concrete run that pushes, the configuration is
unchanged and the trace is the full three-call segment. -/
theorem publish_frame_witness :
    ((PushBranch (constOps (.ok ()) (.ok true) (.ok false) (.ok []) (.ok false) (.ok ()))
        parseOk { repo := (), opts := opts0 } "release-1.19").2.2.opts = opts0 ∧
      ((PushBranch (constOps (.ok ()) (.ok true) (.ok false) (.ok []) (.ok false) (.ok ()))
        parseOk { repo := (), opts := opts0 } "release-1.19").2.1 = [] ∨
       (PushBranch (constOps (.ok ()) (.ok true) (.ok false) (.ok []) (.ok false) (.ok ()))
        parseOk { repo := (), opts := opts0 } "release-1.19").2.1 =
         [.hasBranch "release-1.19"] ∨
       (PushBranch (constOps (.ok ()) (.ok true) (.ok false) (.ok []) (.ok false) (.ok ()))
        parseOk { repo := (), opts := opts0 } "release-1.19").2.1 =
         [.hasBranch "release-1.19", .hasRemoteBranch "release-1.19"] ∨
       (PushBranch (constOps (.ok ()) (.ok true) (.ok false) (.ok []) (.ok false) (.ok ()))
        parseOk { repo := (), opts := opts0 } "release-1.19").2.1 =
         [.hasBranch "release-1.19", .hasRemoteBranch "release-1.19",
          .push "release-1.19"]))
    ∧
    ((PushTag (constOps (.ok ()) (.ok true) (.ok false) (.ok ["v1.18.0"]) (.ok false) (.ok ()))
        parseOk "master" { repo := (), opts := opts0 } "v1.18.0").2.2.opts = opts0 ∧
      ((PushTag (constOps (.ok ()) (.ok true) (.ok false) (.ok ["v1.18.0"]) (.ok false) (.ok ()))
        parseOk "master" { repo := (), opts := opts0 } "v1.18.0").2.1 = [] ∨
       (PushTag (constOps (.ok ()) (.ok true) (.ok false) (.ok ["v1.18.0"]) (.ok false) (.ok ()))
        parseOk "master" { repo := (), opts := opts0 } "v1.18.0").2.1 =
         [.tagsForBranch "master"] ∨
       (PushTag (constOps (.ok ()) (.ok true) (.ok false) (.ok ["v1.18.0"]) (.ok false) (.ok ()))
        parseOk "master" { repo := (), opts := opts0 } "v1.18.0").2.1 =
         [.tagsForBranch "master", .hasRemoteTag "v1.18.0"] ∨
       (PushTag (constOps (.ok ()) (.ok true) (.ok false) (.ok ["v1.18.0"]) (.ok false) (.ok ()))
        parseOk "master" { repo := (), opts := opts0 } "v1.18.0").2.1 =
         [.tagsForBranch "master", .hasRemoteTag "v1.18.0",
          .push "v1.18.0"])) :=
  ⟨(publish_frame
      (constOps (.ok ()) (.ok true) (.ok false) (.ok []) (.ok false) (.ok ()))
      parseOk parseOk "master" { repo := (), opts := opts0 } "release-1.19").1,
   (publish_frame
      (constOps (.ok ()) (.ok true) (.ok false) (.ok ["v1.18.0"]) (.ok false) (.ok ()))
      parseOk parseOk "master" { repo := (), opts := opts0 } "v1.18.0").2⟩

end Release
